import Mathlib

/-!
Shallow embedding of `webhook_server.py` (TradingView webhook alert server).

The program receives a price-alert webhook, fetches a market snapshot,
asks a language model for an analysis, and emails the result.  External
collaborators (the market-data source `yfinance`, the language-model API,
the SMTP transport, and the request clock) are modelled as explicit
oracle parameters; everything the program itself computes is translated
directly from the Python source.  Floating-point numbers are modelled as
rationals, and Python's float `format` specs (`:,.2f`, `:+.2f`) are
abstracted behind a formatting record, since no verified property
depends on the printed digits of a float.
-/

namespace WebhookServer

/-- Python values that can result from parsing a JSON request body
(`request.get_json`).  Mirrors the Python data model: `None`, booleans,
numbers, strings, lists and dicts. -/
inductive JValue where
  | jnull : JValue
  | jbool : Bool → JValue
  | jnum : Int → JValue
  | jstr : String → JValue
  | jarr : List JValue → JValue
  | jobj : List (String × JValue) → JValue

/-- Python truthiness (`bool(v)`): `None`, `False`, `0`, `""`, `[]` and
an empty dict are falsy; everything else is truthy.  This is the test
performed by `if not data:` on line 164 of the source. -/
def pyTruthy : JValue → Bool
  | .jnull => false
  | .jbool b => b
  | .jnum n => n != 0
  | .jstr s => !s.isEmpty
  | .jarr xs => !xs.isEmpty
  | .jobj fs => !fs.isEmpty

mutual

/-- Python `repr` of a JSON-decoded value (used by `str` on containers).
Best-effort model of CPython's rendering; no verified property inspects
the rendering of a non-string value. -/
def pyRepr : JValue → String
  | .jnull => "None"
  | .jbool true => "True"
  | .jbool false => "False"
  | .jnum n => toString n
  | .jstr s => "\x27" ++ s ++ "\x27"
  | .jarr xs => "[" ++ String.intercalate ", " (pyReprList xs) ++ "]"
  | .jobj fs => "\x7b" ++ String.intercalate ", " (pyReprFields fs) ++ "\x7d"

/-- `repr` of each element of a Python list. -/
def pyReprList : List JValue → List String
  | [] => []
  | v :: vs => pyRepr v :: pyReprList vs

/-- `repr` of each `key: value` pair of a Python dict. -/
def pyReprFields : List (String × JValue) → List String
  | [] => []
  | (k, v) :: fs => ("\x27" ++ k ++ "\x27: " ++ pyRepr v) :: pyReprFields fs

end

/-- Python `str()` of a JSON-decoded value, as used by f-string
interpolation: a string renders as itself, other values via `repr`. -/
def pyStr : JValue → String
  | .jstr s => s
  | v => pyRepr v

/-- Python `dict.get(k, default)`: the stored value when the key is
present, otherwise the default. -/
def pyDictGet (fs : List (String × JValue)) (k : String) (dflt : JValue) : JValue :=
  (fs.lookup k).getD dflt

/-- Process-wide configuration, loaded once at startup from environment
variables (lines 22-26 of the source). -/
structure Config where
  gmailUser : String
  gmailAppPass : String
  toEmail : String
  anthropicKey : String
  webhookSecret : String

/-- Result of `data.get("secret") != WEBHOOK_SECRET` (line 168), negated:
Python compares the raw JSON value against the configured secret string,
so only a string value can match; a missing key yields `None`, which
never equals a string. -/
def secretMatches : Option JValue → String → Bool
  | some (.jstr s), sec => s == sec
  | _, _ => false

/-- One row of the intraday history frame returned by
`yf.Ticker(sym).history(period="1d", interval="5m")`: the row's opening
and closing prices. -/
structure HistRow where
  openP : ℚ
  closeP : ℚ

/-- Outcome of one market-data query for one symbol: either some
exception (network error, malformed response, ...) or a history frame,
possibly empty. -/
inductive FetchOutcome where
  | err : FetchOutcome
  | hist : List HistRow → FetchOutcome

/-- A snapshot entry: `{"price": price, "pct": pct}` (line 44). -/
structure Entry where
  price : ℚ
  pct : ℚ

/-- Body of the per-instrument `try` block of `get_live_snapshot`
(lines 37-46): an exception, or an empty frame, yields no entry; an
opening price of zero raises `ZeroDivisionError` inside the `try`, which
the bare `except` also swallows; otherwise the entry holds the last
close and the percent change from the first open. -/
def entryOf : FetchOutcome → Option Entry
  | .err => none
  | .hist [] => none
  | .hist (r :: rs) =>
      let price := ((r :: rs).getLast (by simp)).closeP
      let openP := r.openP
      if openP = 0 then none
      else some ⟨price, (price - openP) / openP * 100⟩

/-- The fixed instrument-to-symbol table of `get_live_snapshot`
(line 34). -/
def tickers : List (String × String) :=
  [("ES", "ES=F"), ("YM", "YM=F"), ("NQ", "NQ=F"), ("VIX", "^VIX")]

/-- `get_live_snapshot` (lines 32-47): iterate the fixed instrument
table in order; for each symbol consult the market-data source
(`market`), inserting an entry exactly when the `try` body produces one.
The `triggered_ticker` argument is the raw value of the payload's
`ticker` field (line 174). -/
def get_live_snapshot (triggeredTicker : JValue) (market : String → FetchOutcome) :
    List (String × Entry) :=
  tickers.foldl
    (fun snapshot p =>
      match entryOf (market p.2) with
      | some e => snapshot ++ [(p.1, e)]
      | none => snapshot)
    []

/-- Abstraction of Python float formatting: `money` is the format spec
`,.2f` (thousands separators, two decimals) and `pct` is `+.2f`
(explicit sign, two decimals), both applied to IEEE doubles in the
source.  The printed digits of a float are outside the shallow
embedding; both are process-wide constant functions. -/
structure FloatFmt where
  money : ℚ → String
  pct : ℚ → String

/-- The `snapshot_str` computation of `generate_alert_analysis`
(lines 63-66): join one formatted line per snapshot entry; Python's
`or` substitutes the placeholder exactly when the joined string is
empty (i.e. falsy). -/
def snapshotStrOf (snapshot : List (String × Entry)) (fmt : FloatFmt) : String :=
  let joined := String.intercalate "\n" (snapshot.map (fun p =>
    "  " ++ p.1 ++ ": $" ++ fmt.money p.2.price ++ " (" ++ fmt.pct p.2.pct ++ "% from open)"))
  if joined = "" then "  Snapshot unavailable" else joined

/-- The part of the prompt f-string (lines 68-77) that precedes the
interpolated `snapshot_str`, with the field fallbacks of lines 56-60
and the `note or` truthiness test of line 75. -/
def promptHead (alertData : List (String × JValue)) (nowEt : String) : String :=
  "A TradingView price alert just fired for a futures trader at " ++ nowEt ++
  ".\n\nALERT DETAILS:\n  Instrument: " ++
  pyStr (pyDictGet alertData "ticker" (.jstr "Unknown")) ++
  "\n  Price: " ++ pyStr (pyDictGet alertData "price" (.jstr "Unknown")) ++
  "\n  Level hit: " ++ pyStr (pyDictGet alertData "level_name" (.jstr "key level")) ++
  "\n  Direction: " ++ pyStr (pyDictGet alertData "direction" (.jstr "hit")) ++
  "\n  Trader\x27s note: " ++
  (let note := pyDictGet alertData "note" (.jstr "")
   if pyTruthy note then pyStr note else "None") ++
  "\n\nCURRENT MARKET SNAPSHOT:\n"

/-- The part of the prompt f-string (lines 78-86) that follows the
interpolated `snapshot_str`. -/
def promptTail : String :=
  "\n\nWrite a sharp, 3-4 sentence alert analysis:\n1. Confirm what just happened (which level, which instrument)\n2. What it means for the trade — is the setup from this morning still valid? \n3. What ES and YM are doing RIGHT NOW relative to each other (diverging or confirming?)\n4. One specific thing to watch next (next level, confirmation needed, or invalidation point)\n\nBe direct. No filler. Write like a desk analyst texting a trader between positions."

/-- The full prompt built by `generate_alert_analysis` (lines 68-86). -/
def promptOf (alertData : List (String × JValue)) (snapshot : List (String × Entry))
    (nowEt : String) (fmt : FloatFmt) : String :=
  promptHead alertData nowEt ++ snapshotStrOf snapshot fmt ++ promptTail

/-- `generate_alert_analysis` (lines 52-93): build the prompt and invoke
the language model.  The `llm` oracle stands for the whole external
call — `client.messages.create(model=..., max_tokens=300, messages=[one
user message])` followed by `message.content[0].text` — returning the
generated text, or the message of whatever exception the call raised
(which propagates out of this function).  `nowEt` is the
`datetime.now(ET)` reading of line 61. -/
def generate_alert_analysis (cfg : Config) (alertData : List (String × JValue))
    (snapshot : List (String × Entry)) (nowEt : String) (fmt : FloatFmt)
    (llm : String → Except String String) : Except String String :=
  llm (promptOf alertData snapshot nowEt fmt)

/-- The email subject f-string (line 106). -/
def subjectOf (alertData : List (String × JValue)) (nowEt : String) : String :=
  "🚨 " ++ pyStr (pyDictGet alertData "ticker" (.jstr "Alert")) ++ " hit " ++
  pyStr (pyDictGet alertData "level_name" (.jstr "Key Level")) ++ " — " ++ nowEt

/-- One entry of `snapshot_html` (lines 111-114): a row whose colour is
green when the percent change is nonnegative, red otherwise. -/
def entryHtml (fmt : FloatFmt) (p : String × Entry) : String :=
  "<div style=\x27display:flex;justify-content:space-between;padding:6px 0;border-bottom:1px solid #1e2330\x27>" ++
  "<span style=\x27font-family:monospace;color:#5a6480\x27>" ++ p.1 ++ "</span>" ++
  "<span style=\x27font-family:monospace;color:" ++
  (if (0 : ℚ) ≤ p.2.pct then "#00d4a0" else "#ff4d6d") ++ "\x27>" ++
  "$" ++ fmt.money p.2.price ++ " (" ++ fmt.pct p.2.pct ++ "%)</span></div>"

/-- `snapshot_html` (lines 110-116): concatenation of one row per
snapshot entry, in snapshot order. -/
def snapshotHtmlOf (snapshot : List (String × Entry)) (fmt : FloatFmt) : String :=
  String.join (snapshot.map (entryHtml fmt))

/-- The HTML template of lines 118-124 up to the interpolation of the
analysis text, with the field fallbacks of lines 100-102. -/
def htmlHead (alertData : List (String × JValue)) (nowEt : String) : String :=
  "\n    <div style=\"background:#0a0c10;padding:24px;font-family:\x27Courier New\x27,monospace;max-width:560px;margin:0 auto\">\n      <div style=\"color:#ff4d6d;font-size:11px;letter-spacing:0.15em;text-transform:uppercase;margin-bottom:6px\">⚡ Alert Triggered</div>\n      <h2 style=\"color:#eef2ff;font-size:20px;margin:0 0 4px;font-family:monospace\">" ++
  pyStr (pyDictGet alertData "ticker" (.jstr "Alert")) ++ " — " ++
  pyStr (pyDictGet alertData "level_name" (.jstr "Key Level")) ++
  "</h2>\n      <div style=\"color:#5a6480;font-size:12px;margin-bottom:20px\">" ++
  pyStr (pyDictGet alertData "price" (.jstr "")) ++ " &nbsp;·&nbsp; " ++ nowEt ++
  "</div>\n\n      <div style=\"background:#111318;border:1px solid #1e2330;border-radius:8px;padding:18px;margin-bottom:16px;color:#c8d0e0;font-family:Georgia,serif;font-size:14px;line-height:1.8\">\n        "

/-- The HTML template of lines 126-134 following the interpolation of
the analysis text, containing the snapshot table and footer. -/
def htmlTailOf (snapshot : List (String × Entry)) (fmt : FloatFmt) : String :=
  "\n      </div>\n\n      <div style=\"background:#111318;border:1px solid #1e2330;border-radius:8px;padding:16px;margin-bottom:16px\">\n        <div style=\"color:#4d9fff;font-size:10px;letter-spacing:0.1em;text-transform:uppercase;margin-bottom:10px\">Live Snapshot</div>\n        " ++
  snapshotHtmlOf snapshot fmt ++
  "\n      </div>\n\n      <div style=\"color:#3a4060;font-size:11px;text-align:center\">Not financial advice.</div>\n    </div>"

/-- The two message bodies built by `send_alert_email`: the plain-text
body of line 136 and the HTML body of lines 118-134, in which the
analysis text has every newline replaced by a break tag (line 125).
`nowEt` is the `datetime.now(ET)` reading taken at line 103 of the call
in which the rendering happens. -/
def renderBodies (alertData : List (String × JValue)) (analysis : String)
    (snapshot : List (String × Entry)) (nowEt : String) (fmt : FloatFmt) :
    String × String :=
  ("ALERT: " ++ pyStr (pyDictGet alertData "ticker" (.jstr "Alert")) ++ " hit " ++
   pyStr (pyDictGet alertData "level_name" (.jstr "Key Level")) ++ " at " ++
   pyStr (pyDictGet alertData "price" (.jstr "")) ++ " — " ++ nowEt ++ "\n\n" ++ analysis,
   htmlHead alertData nowEt ++ analysis.replace "\n" "<br>" ++ htmlTailOf snapshot fmt)

/-- The message handed to the mail transport: sender and recipient from
process configuration (lines 107-108, 142), subject line, and the two
alternative bodies (lines 137-138).  MIME envelope encoding is
abstracted away. -/
structure MailMsg where
  sender : String
  recipient : String
  subject : String
  textBody : String
  htmlBody : String

/-- `send_alert_email` (lines 98-142): render the message and hand it to
the SMTP transport.  The `smtp` oracle stands for the external calls of
lines 140-142 (`SMTP_SSL` connect, `login`, `sendmail`): `.ok` when
delivery succeeds, `.error` with the exception message when any of them
raises (which propagates out of this function). -/
def send_alert_email (cfg : Config) (alertData : List (String × JValue))
    (analysis : String) (snapshot : List (String × Entry)) (nowEt : String)
    (fmt : FloatFmt) (smtp : MailMsg → Except String Unit) : Except String Unit :=
  smtp ⟨cfg.gmailUser, cfg.toEmail, subjectOf alertData nowEt,
        (renderBodies alertData analysis snapshot nowEt fmt).1,
        (renderBodies alertData analysis snapshot nowEt fmt).2⟩

/-- Observable invocations of the two downstream collaborators named in
the spec: the Analysis Generator (the language-model call) and the
Notification Dispatcher (the mail-transport call). -/
inductive Event where
  | generator : Event
  | mailer : Event
deriving DecidableEq, BEq, Repr

/-- The three external collaborators consulted during one request. -/
structure Effects where
  market : String → FetchOutcome
  llm : String → Except String String
  smtp : MailMsg → Except String Unit

/-- An HTTP response: status code and `jsonify`d flat object body. -/
structure HttpResp where
  status : Nat
  body : List (String × String)
deriving DecidableEq, Repr

/-- CPython type name of a JSON-decoded value, as it appears in
`AttributeError` messages. -/
def pyTypeName : JValue → String
  | .jnull => "NoneType"
  | .jbool _ => "bool"
  | .jnum _ => "int"
  | .jstr _ => "str"
  | .jarr _ => "list"
  | .jobj _ => "dict"

/-- Message of the `AttributeError` raised by `data.get(...)` when the
parsed body is not a dict. -/
def attributeErrorMsg (v : JValue) : String :=
  "\x27" ++ pyTypeName v ++ "\x27 object has no attribute \x27get\x27"

/-- The `webhook` route handler (lines 147-186).  `req` is the outcome
of `request.get_json(force=True)` (line 163): `.ok v` when the body
parsed to the JSON value `v`, and `.error msg` when the body was absent
or unparseable — in that case Flask raises `BadRequest` (a subclass of
`Exception`), so control jumps to the handler's `except` clause
(lines 184-186) and the response is 500 with the exception message.
After parsing: a falsy value is rejected 400 (lines 164-165); a secret
mismatch is rejected 401 (lines 168-169); `data.get` on a truthy
non-dict raises `AttributeError`, caught by the same `except` clause;
otherwise the pipeline of lines 174-180 runs, any exception from it
being converted to 500 by the `except` clause.  `nowGen` and `nowMail`
are the clock readings taken inside the generator (line 61) and the
renderer (line 103).  The returned trace records each downstream
collaborator the request reached. -/
def webhook (cfg : Config) (eff : Effects) (fmt : FloatFmt)
    (nowGen nowMail : String) (req : Except String JValue) :
    HttpResp × List Event :=
  match req with
  | .error e => (⟨500, [("error", e)]⟩, [])
  | .ok data =>
      if pyTruthy data = false then (⟨400, [("error", "No JSON body")]⟩, [])
      else
        match data with
        | .jobj fs =>
            if secretMatches (fs.lookup "secret") cfg.webhookSecret = false then
              (⟨401, [("error", "Unauthorized")]⟩, [])
            else
              let snapshot := get_live_snapshot (pyDictGet fs "ticker" (.jstr "")) eff.market
              match generate_alert_analysis cfg fs snapshot nowGen fmt eff.llm with
              | .error e => (⟨500, [("error", e)]⟩, [.generator])
              | .ok analysis =>
                  match send_alert_email cfg fs analysis snapshot nowMail fmt eff.smtp with
                  | .error e => (⟨500, [("error", e)]⟩, [.generator, .mailer])
                  | .ok _ =>
                      (⟨200, [("status", "ok"), ("message", "Alert sent")]⟩,
                       [.generator, .mailer])
        | _ => (⟨500, [("error", attributeErrorMsg data)]⟩, [])

/-! ## Helper lemmas and concrete fixtures -/

/-- String concatenation is associative. -/
lemma strAppendAssoc (a b c : String) : a ++ b ++ c = a ++ (b ++ c) := by
  apply String.ext
  simp [String.data_append]

/-- A dict in which some key is found is nonempty, hence truthy. -/
lemma pyTruthy_jobj_of_lookup {fs : List (String × JValue)} {k : String} {v : JValue}
    (h : fs.lookup k = some v) : pyTruthy (JValue.jobj fs) = true := by
  cases fs with
  | nil => simp [List.lookup] at h
  | cons a l => simp [pyTruthy]

/-- A payload whose `secret` field holds exactly the configured secret
string passes the check of line 168. -/
lemma secretMatches_self {fs : List (String × JValue)} {sec : String}
    (h : fs.lookup "secret" = some (JValue.jstr sec)) :
    secretMatches (fs.lookup "secret") sec = true := by
  rw [h]; simp [secretMatches]

set_option maxRecDepth 4000 in
/-- Unfolding of the authenticated happy path: when the secret matches,
the language model answers, and the transport delivers, the handler
reaches the 200 acknowledgment having invoked generator and mailer. -/
lemma webhook_happy_path (cfg : Config) (eff : Effects) (fmt : FloatFmt)
    (nowGen nowMail : String) (fs : List (String × JValue))
    (hsec : fs.lookup "secret" = some (JValue.jstr cfg.webhookSecret))
    (hllm : ∀ p, ∃ a, eff.llm p = Except.ok a)
    (hsm : ∀ msg, eff.smtp msg = Except.ok ()) :
    webhook cfg eff fmt nowGen nowMail (.ok (.jobj fs)) =
      (⟨200, [("status", "ok"), ("message", "Alert sent")]⟩,
       [Event.generator, Event.mailer]) := by
  have ht := pyTruthy_jobj_of_lookup hsec
  have hs := secretMatches_self hsec
  obtain ⟨a, ha⟩ := hllm (promptOf fs
    (get_live_snapshot (pyDictGet fs "ticker" (.jstr "")) eff.market) nowGen fmt)
  simp [webhook, ht, hs, generate_alert_analysis, ha, send_alert_email, hsm]

/-- A concrete configuration used by witnesses. -/
def cfg0 : Config :=
  ⟨"me@example.com", "apppass", "you@example.com", "api-key", "s3cr3t"⟩

/-- A concrete formatting record used by witnesses. -/
def fmt0 : FloatFmt := ⟨fun _ => "0.00", fun _ => "+0.00"⟩

/-- Concrete collaborators for which every downstream call succeeds
(and every market fetch fails, which the pipeline tolerates). -/
def effOk : Effects := ⟨fun _ => .err, fun _ => .ok "All clear.", fun _ => .ok ()⟩

/-- Concrete collaborators whose language-model call always fails. -/
def effLlmFail : Effects :=
  ⟨fun _ => .err, fun _ => .error "API timeout", fun _ => .ok ()⟩

/-! ## Claims -/

/-- C9: the snapshot fetcher's result does not depend on its
`triggered_ticker` argument — for any two argument values, given
identical responses from the market-data source, `get_live_snapshot`
returns equal maps (the parameter is never read). -/
theorem get_live_snapshot_ignores_trigger (t₁ t₂ : JValue)
    (market : String → FetchOutcome) :
    get_live_snapshot t₁ market = get_live_snapshot t₂ market := rfl

/-- C4, counterexample: a request whose body fails to parse as JSON
(`get_json(force=True)` raises) is answered 500, not 400 — the raised
`BadRequest` is an `Exception` and lands in the handler's blanket
`except` clause. -/
theorem webhook_unparseable_body_is_500 :
    (webhook cfg0 effOk fmt0 "t" "t"
      (Except.error "400 Bad Request: Failed to decode JSON object")).1.status = 500 ∧
    (webhook cfg0 effOk fmt0 "t" "t"
      (Except.error "400 Bad Request: Failed to decode JSON object")).1.status ≠ 400 :=
  ⟨rfl, by decide⟩

/-- C4, amended: for every inbound POST /webhook request whose body is
absent or not parseable as JSON, the handler responds 500 with the
parse-exception message in the JSON body (never 400; the 400 "No JSON
body" answer is reserved for bodies that parse to a falsy JSON value),
and no downstream collaborator is invoked. -/
theorem webhook_unparseable_body_500 (cfg : Config) (eff : Effects) (fmt : FloatFmt)
    (nowGen nowMail m : String) :
    webhook cfg eff fmt nowGen nowMail (.error m) = (⟨500, [("error", m)]⟩, []) := rfl

/-- C10: a request body that parses to a falsy JSON value — in
particular the empty object — is rejected with 400 and the body
`{"error": "No JSON body"}` before the secret is ever checked (the
response does not depend on the configuration), with no generator or
mailer invocation; so such a payload can never produce a 401 or reach
the pipeline. -/
theorem webhook_falsy_body_400 (cfg : Config) (eff : Effects) (fmt : FloatFmt)
    (nowGen nowMail : String) (v : JValue) (h : pyTruthy v = false) :
    webhook cfg eff fmt nowGen nowMail (.ok v) =
      (⟨400, [("error", "No JSON body")]⟩, []) := by
  simp [webhook, h]

/-- Witness for C10 at the empty object `{}`. -/
theorem webhook_falsy_body_400_witness :
    pyTruthy (JValue.jobj []) = false ∧
    webhook cfg0 effOk fmt0 "t" "t" (.ok (JValue.jobj [])) =
      (⟨400, [("error", "No JSON body")]⟩, []) :=
  ⟨rfl, webhook_falsy_body_400 cfg0 effOk fmt0 "t" "t" (JValue.jobj []) rfl⟩

/-- C1, counterexample: the empty object `{}` is a payload whose
`secret` field is missing, yet the handler answers 400, not 401 — the
falsy-body check of line 164 fires before the secret comparison. -/
theorem webhook_missing_secret_empty_object_400 :
    List.lookup "secret" ([] : List (String × JValue)) = none ∧
    (webhook cfg0 effOk fmt0 "t" "t" (.ok (JValue.jobj []))).1.status = 400 ∧
    (webhook cfg0 effOk fmt0 "t" "t" (.ok (JValue.jobj []))).1.status ≠ 401 :=
  ⟨rfl, rfl, by decide⟩

/-- C1, amended: for every request payload that parses to a truthy
(non-empty) JSON object whose `secret` field is missing or not equal to
the configured shared secret, the webhook handler responds 401
`{"error": "Unauthorized"}` and neither the Analysis Generator
(language-model call) nor the Notification Dispatcher (mail send) is
ever invoked for that request.  (An empty payload object is instead
rejected 400 before the secret check, likewise without invoking
either.) -/
theorem webhook_bad_secret_401 (cfg : Config) (eff : Effects) (fmt : FloatFmt)
    (nowGen nowMail : String) (fs : List (String × JValue))
    (hne : fs ≠ [])
    (hsec : secretMatches (fs.lookup "secret") cfg.webhookSecret = false) :
    webhook cfg eff fmt nowGen nowMail (.ok (.jobj fs)) =
      (⟨401, [("error", "Unauthorized")]⟩, []) := by
  have ht : pyTruthy (JValue.jobj fs) = true := by
    cases fs with
    | nil => exact absurd rfl hne
    | cons a l => simp [pyTruthy]
  simp [webhook, ht, hsec]

/-- Witness for C1 (amended) at a nonempty payload with no `secret`. -/
theorem webhook_bad_secret_401_witness :
    webhook cfg0 effOk fmt0 "t" "t"
        (.ok (.jobj [("ticker", JValue.jstr "ES1!")])) =
      (⟨401, [("error", "Unauthorized")]⟩, []) :=
  webhook_bad_secret_401 cfg0 effOk fmt0 "t" "t" [("ticker", JValue.jstr "ES1!")]
    (by simp) rfl

set_option maxRecDepth 4000 in
/-- C2: for every authenticated request in which the language-model
call raises or returns an error, the webhook handler responds 500 with
the error message in the JSON body, and zero mail-transport calls are
made for that request (the email dispatch happens only after analysis
succeeds). -/
theorem webhook_llm_error_500_no_mail (cfg : Config) (eff : Effects) (fmt : FloatFmt)
    (nowGen nowMail : String) (fs : List (String × JValue)) (m : String)
    (hsec : fs.lookup "secret" = some (JValue.jstr cfg.webhookSecret))
    (hllm : ∀ p, eff.llm p = Except.error m) :
    webhook cfg eff fmt nowGen nowMail (.ok (.jobj fs)) =
      (⟨500, [("error", m)]⟩, [Event.generator]) ∧
    (webhook cfg eff fmt nowGen nowMail (.ok (.jobj fs))).2.count Event.mailer = 0 := by
  have ht := pyTruthy_jobj_of_lookup hsec
  have hs := secretMatches_self hsec
  have h1 : webhook cfg eff fmt nowGen nowMail (.ok (.jobj fs)) =
      (⟨500, [("error", m)]⟩, [Event.generator]) := by
    simp [webhook, ht, hs, generate_alert_analysis, hllm]
  exact ⟨h1, by rw [h1]; rfl⟩

/-- Witness for C2 at a concrete authenticated request whose
language-model call fails. -/
theorem webhook_llm_error_500_no_mail_witness :
    ([("secret", JValue.jstr "s3cr3t")].lookup "secret"
        = some (JValue.jstr cfg0.webhookSecret)) ∧
    (∀ p, effLlmFail.llm p = Except.error "API timeout") ∧
    (webhook cfg0 effLlmFail fmt0 "t" "t"
        (.ok (.jobj [("secret", JValue.jstr "s3cr3t")])) =
      (⟨500, [("error", "API timeout")]⟩, [Event.generator]) ∧
     (webhook cfg0 effLlmFail fmt0 "t" "t"
        (.ok (.jobj [("secret", JValue.jstr "s3cr3t")]))).2.count Event.mailer = 0) :=
  ⟨rfl, fun _ => rfl,
   webhook_llm_error_500_no_mail cfg0 effLlmFail fmt0 "t" "t"
     [("secret", JValue.jstr "s3cr3t")] "API timeout" rfl (fun _ => rfl)⟩

/-- C3: for every parseable payload with the correct secret, when
snapshot fetch, analysis generation, and email dispatch all complete
without raising, the response is 200 with a JSON body whose status is
"ok", and the dispatcher (mail send) is invoked exactly once for that
request. -/
theorem webhook_success_200_one_mail (cfg : Config) (eff : Effects) (fmt : FloatFmt)
    (nowGen nowMail : String) (fs : List (String × JValue))
    (hsec : fs.lookup "secret" = some (JValue.jstr cfg.webhookSecret))
    (hllm : ∀ p, ∃ a, eff.llm p = Except.ok a)
    (hsm : ∀ msg, eff.smtp msg = Except.ok ()) :
    (webhook cfg eff fmt nowGen nowMail (.ok (.jobj fs))).1 =
      ⟨200, [("status", "ok"), ("message", "Alert sent")]⟩ ∧
    (webhook cfg eff fmt nowGen nowMail (.ok (.jobj fs))).2.count Event.mailer = 1 := by
  have h1 := webhook_happy_path cfg eff fmt nowGen nowMail fs hsec hllm hsm
  exact ⟨by rw [h1], by rw [h1]; rfl⟩

/-- Witness for C3 at the concrete all-success collaborators. -/
theorem webhook_success_200_one_mail_witness :
    (∀ p, ∃ a, effOk.llm p = Except.ok a) ∧
    ((webhook cfg0 effOk fmt0 "t" "t"
        (.ok (.jobj [("secret", JValue.jstr "s3cr3t")]))).1 =
      ⟨200, [("status", "ok"), ("message", "Alert sent")]⟩ ∧
     (webhook cfg0 effOk fmt0 "t" "t"
        (.ok (.jobj [("secret", JValue.jstr "s3cr3t")]))).2.count Event.mailer = 1) :=
  ⟨fun _ => ⟨"All clear.", rfl⟩,
   webhook_success_200_one_mail cfg0 effOk fmt0 "t" "t"
     [("secret", JValue.jstr "s3cr3t")] rfl (fun _ => ⟨"All clear.", rfl⟩)
     (fun _ => rfl)⟩

/-- C6, counterexample: the renderer is not a pure function of the
(payload, analysis, snapshot) triple alone — it also reads the clock
(line 103), so two calls with an identical triple made at different
times produce different plain-text bodies. -/
theorem render_depends_on_clock :
    (renderBodies [] "A" [] "01:00 PM ET" fmt0).1 ≠
      (renderBodies [] "A" [] "02:00 PM ET" fmt0).1 := by decide

/-- C6, amended: rendering is deterministic given the clock: for any two
calls given identical (payload, analysis, snapshot) triples and an
identical current-time reading (and the process-wide formatting, which
never changes), the renderer produces byte-identical plain-text and
HTML message bodies. -/
theorem render_deterministic (p p' : List (String × JValue)) (a a' : String)
    (s s' : List (String × Entry)) (t t' : String) (fmt fmt' : FloatFmt)
    (hp : p = p') (ha : a = a') (hs : s = s') (ht : t = t') (hf : fmt = fmt') :
    renderBodies p a s t fmt = renderBodies p' a' s' t' fmt' := by
  subst hp; subst ha; subst hs; subst ht; subst hf; rfl

/-- Witness for C6 (amended) at concrete equal inputs. -/
theorem render_deterministic_witness :
    renderBodies [] "A" [] "01:00 PM ET" fmt0 =
      renderBodies [] "A" [] "01:00 PM ET" fmt0 :=
  render_deterministic [] [] "A" "A" [] [] "01:00 PM ET" "01:00 PM ET" fmt0 fmt0
    rfl rfl rfl rfl rfl

set_option maxRecDepth 4000 in
/-- C7: for every authenticated request in which the snapshot map is
empty (all instrument fetches failed), the analysis prompt embeds the
placeholder string "Snapshot unavailable" in place of the
per-instrument snapshot block, the pipeline still proceeds to
generation and dispatch, and on success the response is 200. -/
theorem webhook_empty_snapshot_placeholder_200 (cfg : Config) (eff : Effects)
    (fmt : FloatFmt) (nowGen nowMail : String) (fs : List (String × JValue))
    (hm : ∀ s, eff.market s = FetchOutcome.err)
    (hsec : fs.lookup "secret" = some (JValue.jstr cfg.webhookSecret))
    (hllm : ∀ p, ∃ a, eff.llm p = Except.ok a)
    (hsm : ∀ msg, eff.smtp msg = Except.ok ()) :
    get_live_snapshot (pyDictGet fs "ticker" (JValue.jstr "")) eff.market = [] ∧
    (∃ l r, promptOf fs
        (get_live_snapshot (pyDictGet fs "ticker" (JValue.jstr "")) eff.market)
        nowGen fmt = l ++ "Snapshot unavailable" ++ r) ∧
    (webhook cfg eff fmt nowGen nowMail (.ok (.jobj fs))).1.status = 200 ∧
    (webhook cfg eff fmt nowGen nowMail (.ok (.jobj fs))).2 =
      [Event.generator, Event.mailer] := by
  have hsnap : get_live_snapshot (pyDictGet fs "ticker" (JValue.jstr "")) eff.market
      = [] := by
    simp [get_live_snapshot, tickers, hm, entryOf]
  have h1 := webhook_happy_path cfg eff fmt nowGen nowMail fs hsec hllm hsm
  refine ⟨hsnap, ⟨promptHead fs nowGen ++ "  ", promptTail, ?_⟩, by rw [h1], by rw [h1]⟩
  rw [hsnap]
  show promptHead fs nowGen ++ snapshotStrOf [] fmt ++ promptTail = _
  have h2 : snapshotStrOf [] fmt = "  " ++ "Snapshot unavailable" := rfl
  rw [h2, ← strAppendAssoc (promptHead fs nowGen) "  " "Snapshot unavailable"]

/-- Witness for C7 at collaborators whose every market fetch fails. -/
theorem webhook_empty_snapshot_placeholder_200_witness :
    (∀ s, effOk.market s = FetchOutcome.err) ∧
    (get_live_snapshot
        (pyDictGet [("secret", JValue.jstr "s3cr3t")] "ticker" (JValue.jstr ""))
        effOk.market = [] ∧
     (∃ l r, promptOf [("secret", JValue.jstr "s3cr3t")]
        (get_live_snapshot
          (pyDictGet [("secret", JValue.jstr "s3cr3t")] "ticker" (JValue.jstr ""))
          effOk.market) "t" fmt0 = l ++ "Snapshot unavailable" ++ r) ∧
     (webhook cfg0 effOk fmt0 "t" "t"
        (.ok (.jobj [("secret", JValue.jstr "s3cr3t")]))).1.status = 200 ∧
     (webhook cfg0 effOk fmt0 "t" "t"
        (.ok (.jobj [("secret", JValue.jstr "s3cr3t")]))).2 =
       [Event.generator, Event.mailer]) :=
  ⟨fun _ => rfl,
   webhook_empty_snapshot_placeholder_200 cfg0 effOk fmt0 "t" "t"
     [("secret", JValue.jstr "s3cr3t")] (fun _ => rfl) rfl
     (fun _ => ⟨"All clear.", rfl⟩) (fun _ => rfl)⟩

/-- C8: for every (payload, analysis, snapshot) input the plain-text
message body is exactly the summary line
`ALERT: <ticker> hit <level> at <price> — <time>` followed by a blank
line and the analysis text verbatim (so newlines in the analysis are
untouched there), and the newline-to-`<br>` substitution on the
analysis appears in the rich HTML body only. -/
theorem render_plaintext_format (alertData : List (String × JValue))
    (analysis : String) (snapshot : List (String × Entry)) (nowEt : String)
    (fmt : FloatFmt) :
    (renderBodies alertData analysis snapshot nowEt fmt).1 =
      "ALERT: " ++ pyStr (pyDictGet alertData "ticker" (JValue.jstr "Alert")) ++
      " hit " ++ pyStr (pyDictGet alertData "level_name" (JValue.jstr "Key Level")) ++
      " at " ++ pyStr (pyDictGet alertData "price" (JValue.jstr "")) ++
      " — " ++ nowEt ++ "\n\n" ++ analysis ∧
    (∃ l r, (renderBodies alertData analysis snapshot nowEt fmt).2 =
      l ++ analysis.replace "\n" "<br>" ++ r) :=
  ⟨rfl, htmlHead alertData nowEt, htmlTailOf snapshot fmt, rfl⟩

/-- `List.lookup` on a cons cell, phrased with a propositional `if`. -/
lemma lookupConsIte {β : Type} (a k : String) (b : β) (l : List (String × β)) :
    List.lookup a ((k, b) :: l) = if a = k then some b else List.lookup a l := by
  by_cases h : a = k
  · have hb : (a == k) = true := by simp [h]
    simp [List.lookup, hb, h]
  · have hb : (a == k) = false := by simp [h]
    simp [List.lookup, hb, h]

/-- `List.lookup` on the empty association list. -/
lemma lookupNil {β : Type} (a : String) :
    List.lookup a ([] : List (String × β)) = none := rfl

set_option maxHeartbeats 2000000 in
/-- C5: the snapshot fetcher never fails as a whole and attempts every
instrument independently: for every market-data behaviour and every
instrument name, the returned map holds an entry for that name exactly
when the name is in the fixed table and its own fetch produced an entry
(any failing instrument — exception, empty series, zero opening price —
is simply omitted without affecting the others), so the result is
always a (possibly partial or empty) map. -/
theorem get_live_snapshot_per_instrument (tt : JValue)
    (market : String → FetchOutcome) (name : String) :
    (get_live_snapshot tt market).lookup name =
      (tickers.lookup name).bind (fun sym => entryOf (market sym)) := by
  rcases hES : entryOf (market "ES=F") with _ | eES <;>
  rcases hYM : entryOf (market "YM=F") with _ | eYM <;>
  rcases hNQ : entryOf (market "NQ=F") with _ | eNQ <;>
  rcases hVX : entryOf (market "^VIX") with _ | eVX <;>
  simp only [get_live_snapshot, tickers, List.foldl, hES, hYM, hNQ, hVX] <;>
  simp only [lookupConsIte, lookupNil] <;>
  by_cases hn1 : name = "ES" <;> by_cases hn2 : name = "YM" <;>
  by_cases hn3 : name = "NQ" <;> by_cases hn4 : name = "VIX" <;>
  simp_all [lookupConsIte, lookupNil]

end WebhookServer
